import Mathlib

/-!
Verification of the payload-normalization core of the fichub-api client.
All referenced code lives in the package init module of src/fichub_api;
line numbers cited in doc comments refer to that file.

Modelling conventions:
* JSON values decoded by msgspec are modelled by JsonV; Python dicts by
  insertion-ordered association lists (PyDict) whose keys are unique in
  every payload the library builds or receives.
* Python exceptions are modelled by the PyErr error type and Except.
* Python str operations are re-implemented structurally over List Char so
  that every definition evaluates by kernel reduction; ASCII semantics are
  assumed for case operations, matching every key and URL in the payloads.
* shape_data mutates its argument in place and returns it; the model
  returns the final state of that argument, with the in-place pops of the
  nested rawExtendedMeta object applied at the reference sites.
-/

inductive JsonV where
  | null
  | bool (b : Bool)
  | int (n : Int)
  | str (s : String)
  | list (xs : List JsonV)
  | obj (fields : List (String × JsonV))

abbrev PyDict := List (String × JsonV)

inductive PyErr where
  | keyError (k : String)
  | typeError
  | attributeError
  | indexError
  | valueError
  | validationError (msg : String)
  | fichubError (msg : String) (cause : PyErr)
  deriving DecidableEq

/-- First-match lookup in an insertion-ordered Python dict. -/
def dictGet : PyDict → String → Option JsonV
  | [], _ => none
  | (k, v) :: d, key => if k = key then some v else dictGet d key

/-- Python dict item assignment: replace in place, else append. -/
def dictSet : PyDict → String → JsonV → PyDict
  | [], key, v => [(key, v)]
  | (k, w) :: d, key, v => if k = key then (k, v) :: d else (k, w) :: dictSet d key v

/-- Python dict.pop with the key present or with a swallowed KeyError:
removes the entry for the key, if any; keys are unique in a Python dict,
so removing every occurrence coincides with removing the only one. -/
def dictPop : PyDict → String → PyDict
  | [], _ => []
  | (k, v) :: d, key => if k = key then dictPop d key else (k, v) :: dictPop d key

/-- Python dict.update: fold the updates over the dict in their order. -/
def dictUpdate (d : PyDict) (u : PyDict) : PyDict :=
  u.foldl (fun acc kv => dictSet acc kv.1 kv.2) d

/-- Python subscripting d[k]: KeyError when the key is absent. -/
def getItem (d : PyDict) (k : String) : Except PyErr JsonV :=
  match dictGet d k with
  | some v => .ok v
  | none => .error (.keyError k)

/-- Python dict.pop(k) without a default: the value and the shrunken dict,
or KeyError. -/
def popItem (d : PyDict) (k : String) : Except PyErr (JsonV × PyDict) :=
  match dictGet d k with
  | some v => .ok (v, dictPop d k)
  | none => .error (.keyError k)

/-- Python truthiness of a decoded JSON value. -/
def pyTruthy : JsonV → Bool
  | .null => false
  | .bool b => b
  | .int n => n ≠ 0
  | .str s => s ≠ ""
  | .list l => !l.isEmpty
  | .obj o => !o.isEmpty

def expectStr (v : JsonV) (e : PyErr) : Except PyErr String :=
  match v with
  | .str s => .ok s
  | _ => .error e

def expectObj (v : JsonV) (e : PyErr) : Except PyErr PyDict :=
  match v with
  | .obj o => .ok o
  | _ => .error e

/-- Python len() on a decoded JSON value. -/
def pyLen : JsonV → Except PyErr Nat
  | .str s => .ok s.length
  | .list l => .ok l.length
  | .obj o => .ok o.length
  | _ => .error .typeError

/-- Python subscripting v[0]: first element of a list, first character of a
string, IndexError when empty, TypeError otherwise (None included). -/
def pySubscriptZero : JsonV → Except PyErr JsonV
  | .list (x :: _) => .ok x
  | .list [] => .error .indexError
  | .str s =>
    match s.toList with
    | c :: _ => .ok (.str (String.mk [c]))
    | [] => .error .indexError
  | _ => .error .typeError

/-- Returns the remainder when the second list starts with the first. -/
def stripPre : List Char → List Char → Option (List Char)
  | [], l => some l
  | _ :: _, [] => none
  | p :: ps, c :: cs => if c = p then stripPre ps cs else none

/-- Fuel-driven worker for non-overlapping left-to-right split; the fuel is
always at least the length of the text, so the first branch is never hit. -/
def splitGo (sep : List Char) : Nat → List Char → List Char → List (List Char)
  | 0, l, acc => [acc.reverse ++ l]
  | _ + 1, [], acc => [acc.reverse]
  | fuel + 1, c :: cs, acc =>
    match stripPre sep (c :: cs) with
    | some rest => acc.reverse :: splitGo sep fuel rest []
    | none => splitGo sep fuel cs (c :: acc)

/-- Python str.split(sep) for a non-empty separator. -/
def pySplit (s sep : String) : List String :=
  if sep.toList.isEmpty then [s]
  else (splitGo sep.toList (s.toList.length + 1) s.toList []).map String.mk

/-- Python sep.join for joining split remainders back together. -/
def joinSep (sep : List Char) : List (List Char) → List Char
  | [] => []
  | [x] => x
  | x :: xs => x ++ sep ++ joinSep sep xs

/-- Python str.split(sep, 1): at most one split, at the first occurrence. -/
def pySplitOnce (s sep : String) : List String :=
  match pySplit s sep with
  | [] => [s]
  | [x] => [x]
  | x :: rest => [x, String.mk (joinSep sep.toList (rest.map String.toList))]

/-- Python substring containment (the in operator on str). -/
def strContainsList : List Char → List Char → Bool
  | l, sub =>
    match l with
    | [] => sub.isEmpty
    | _ :: cs => (stripPre sub l).isSome || strContainsList cs sub

def pyContains (s sub : String) : Bool :=
  strContainsList s.toList sub.toList

/-- Fuel-driven worker for str.replace; fuel at least the text length. -/
def replaceGo (pat rep : List Char) : Nat → List Char → List Char
  | 0, l => l
  | _ + 1, [] => []
  | fuel + 1, c :: cs =>
    match stripPre pat (c :: cs) with
    | some rest => rep ++ replaceGo pat rep fuel rest
    | none => c :: replaceGo pat rep fuel cs

/-- Python str.replace for a non-empty pattern. -/
def pyReplace (s pat rep : String) : String :=
  if pat.toList.isEmpty then s
  else String.mk (replaceGo pat.toList rep.toList (s.toList.length + 1) s.toList)

/-- Python str.removesuffix. -/
def pyRemoveSuffix (s suf : String) : String :=
  let sl := s.toList
  let fl := suf.toList
  if (stripPre fl.reverse sl.reverse).isSome then String.mk (sl.take (sl.length - fl.length))
  else s

/-- Python str.strip() restricted to truthiness tests: whether any
non-whitespace character remains. -/
def pyStripTruthy (s : String) : Bool :=
  s.toList.any (fun c => !c.isWhitespace)

/-- Python int() over a decimal string with an optional sign. -/
def pyInt (s : String) : Except PyErr Int :=
  let digits (l : List Char) : Option Nat :=
    if l.isEmpty then none
    else if l.all Char.isDigit then some (l.foldl (fun a c => a * 10 + (c.toNat - 48)) 0)
    else none
  match s.toList with
  | '-' :: rest =>
    match digits rest with
    | some n => .ok (-(n : Int))
    | none => .error .valueError
  | l =>
    match digits l with
    | some n => .ok (n : Int)
    | none => .error .valueError

/-- Condition of the camel-to-snake generator (lines 253-257) under which
the underscore is omitted: the index is positive (a previous character
exists) and both the previous character and the next one, when present,
equal their own uppercase forms. -/
def camelFused (prev next : Option Char) : Bool :=
  match prev with
  | none => false
  | some p =>
    p.toUpper = p &&
      match next with
      | some n => n.toUpper = n
      | none => true

/-- Per-character chunk of the camel-to-snake generator (lines 253-257): a
non-uppercase character passes through; an uppercase one is lowercased and
prefixed with an underscore unless the fused condition holds. -/
def camelChunk (prev : Option Char) (c : Char) (next : Option Char) : List Char :=
  if !c.isUpper then [c]
  else if camelFused prev next then [c.toLower]
  else ['_', c.toLower]

def camelGo (prev : Option Char) : List Char → List Char
  | [] => []
  | c :: rest => camelChunk prev c rest.head? ++ camelGo (some c) rest

/-- Converts a string from camel case to snake case (lines 247-258),
joining the per-character chunks and stripping leading underscores; ASCII
case semantics are assumed, as in every key the reshaper meets. -/
def _camel_to_snake_case (s : String) : String :=
  String.mk ((camelGo none s.toList).dropWhile (fun c => c = '_'))

inductive SiteKind where
  | ffn
  | ao3
  | other
  deriving DecidableEq

def SiteKind.tag : SiteKind → String
  | .ffn => "ffn"
  | .ao3 => "ao3"
  | .other => "other"

/-- Site classification from shape_data lines 265-271: the fanfiction.net
substring test runs first, then archiveofourown.org, else other. -/
def classifySite (src : String) : SiteKind :=
  if pyContains src "fanfiction.net" then .ffn
  else if pyContains src "archiveofourown.org" then .ao3
  else .other

/-- Fandom extraction for FFN payloads (lines 290-291): split raw_fandom on
the separator with maxsplit one, and when more than one part results,
remove a trailing Crossover marker from the last part. -/
def ffnFandoms (raw : String) : List String :=
  let fandoms := pySplitOnce raw " + "
  if fandoms.length > 1 then
    fandoms.dropLast ++ [pyRemoveSuffix (fandoms.getLastD "") " Crossover"]
  else fandoms

/-- Character-list extraction for FFN payloads (lines 292-296): brackets
become comma separators, the string is split on comma-space, and entries
that strip to nothing are dropped (kept otherwise in unstripped form). -/
def ffnCharacters (s : String) : List String :=
  (pySplit (pyReplace (pyReplace s "[" ", ") "]" ", ") ", ").filter pyStripTruthy

def pyStartsWith (s p : String) : Bool :=
  (stripPre p.toList s.toList).isSome

/-- Scheme and authority prefix of an absolute URL, up to and excluding
the first slash after the authority. -/
def schemeAuthority (base : String) : String :=
  match pySplit base "://" with
  | scheme :: rest :: _ =>
    scheme ++ "://" ++ String.mk (rest.toList.takeWhile (fun c => c ≠ '/'))
  | _ => base

/-- Models urllib.parse.urljoin for the URL shapes this client meets:
empty references keep the base, absolute references pass through,
scheme-relative references adopt the base scheme, and root-relative or
bare-relative paths are joined onto the scheme and authority of the base,
whose own path here is empty or a bare slash; query, fragment and
dot-segment resolution are not modelled. -/
def urljoin (base url : String) : String :=
  if url = "" then base
  else if pyContains url "://" then url
  else if pyStartsWith url "//" then
    match pySplit base "://" with
    | scheme :: _ :: _ => scheme ++ ":" ++ url
    | _ => url
  else if pyStartsWith url "/" then schemeAuthority base ++ url
  else schemeAuthority base ++ "/" ++ url

/-- One step of the author-key scan of shape_data lines 273-277: a key
containing author contributes the value under the snake-cased key suffix,
or under name for an empty suffix, to the nested author group. -/
def authorScanStep (shaped : PyDict) (k : String) (v : JsonV) : PyDict :=
  if pyContains k "author" then
    let suffix :=
      match pySplit k "author" with
      | _ :: s :: _ => s
      | _ => ""
    let fieldName := if suffix = "" then "name" else _camel_to_snake_case suffix
    let inner :=
      match dictGet shaped "author" with
      | some (.obj o) => o
      | _ => []
    dictSet shaped "author" (.obj (dictSet inner fieldName v))
  else shaped

def authorScan (data : PyDict) : PyDict :=
  data.foldl (fun shaped kv => authorScanStep shaped kv.1 kv.2) []

/-- Stats field read used by both site branches (lines 286-288, 300-303):
dict.get with default "0", strip comma separators, parse as int. -/
def statGet (m : PyDict) (k : String) : Except PyErr Int := do
  let s ← expectStr ((dictGet m k).getD (.str "0")) .attributeError
  pyInt (pyReplace s "," "")

/-- Final step of shape_data (lines 329-331), shared by both branches:
shaped.update with the popped source value under url plus the site tag,
then data.update(shaped) on the data state left by the earlier steps. -/
def shapeFinish (data shaped : PyDict) (tg : String) : Except PyErr PyDict := do
  let srcPair ← popItem data "source"
  pure (dictUpdate srcPair.2 (dictUpdate shaped [("url", srcPair.1), ("type", .str tg)]))

/-- Model of shape_data (lines 261-331). The Python function mutates its
data argument in place and returns it; this definition returns that final
state. The nested rawExtendedMeta dict stays aliased by the data entry
and, for AO3, by the shaped tags entry, so the in-branch pops of fandom
and character and the later pops of stats and language act on one shared
object; the model applies all the pops before storing the shared final
state at both reference sites. -/
def shape_data (data : PyDict) : Except PyErr PyDict := do
  let srcV ← getItem data "source"
  let src ← expectStr srcV .typeError
  let type_ := classifySite src
  let shapedA := authorScan data
  let shapedB ←
    if type_ = SiteKind.ao3 then do
      let authorV ← getItem shapedA "author"
      let authorD ← expectObj authorV .typeError
      let urlV ← getItem authorD "url"
      let urlS ← expectStr urlV .typeError
      pure (dictSet shapedA "author"
        (.obj (dictSet authorD "url"
          (.str (urljoin "https://www.archiveofourown.org" urlS)))))
    else pure shapedA
  let metaV ← getItem data "rawExtendedMeta"
  if pyTruthy metaV then do
    let m0 ← expectObj metaV .typeError
    let branch ←
      match type_ with
      | SiteKind.ffn => do
        let fav ← statGet m0 "favorites"
        let fol ← statGet m0 "follows"
        let rev ← statGet m0 "reviews"
        let story_stats := JsonV.obj
          [("favorites", .int fav), ("follows", .int fol), ("reviews", .int rev)]
        let rating ← getItem m0 "rated"
        let rawFandomV ← getItem m0 "raw_fandom"
        let rawFandom ← expectStr rawFandomV .attributeError
        let fandoms := JsonV.list ((ffnFandoms rawFandom).map JsonV.str)
        let charsV ← getItem m0 "characters"
        let charsS ← expectStr charsV .attributeError
        let characters := JsonV.list ((ffnCharacters charsS).map JsonV.str)
        let crossover := (dictGet m0 "crossover").getD JsonV.null
        let shapedC := dictSet shapedB "genres" ((dictGet m0 "genres").getD (JsonV.str ""))
        pure (story_stats, rating, fandoms, characters, crossover, shapedC, m0)
      | SiteKind.ao3 => do
        let statsV ← getItem m0 "stats"
        let statsD ← expectObj statsV .attributeError
        let bm ← statGet statsD "bookmarks"
        let cm ← statGet statsD "comments"
        let ht ← statGet statsD "hits"
        let kd ← statGet statsD "kudos"
        let story_stats := JsonV.obj
          [("bookmarks", .int bm), ("comments", .int cm),
           ("hits", .int ht), ("kudos", .int kd)]
        let rating ← pySubscriptZero ((dictGet m0 "rating").getD JsonV.null)
        let fandomPair ← popItem m0 "fandom"
        let characterPair ← popItem fandomPair.2 "character"
        let fl ← pyLen fandomPair.1
        let crossover := JsonV.bool (decide (1 < fl))
        pure (story_stats, rating, fandomPair.1, characterPair.1, crossover,
          shapedB, characterPair.2)
      | SiteKind.other =>
        pure (JsonV.obj [], JsonV.str "No Rating", JsonV.list [], JsonV.list [],
          JsonV.bool false, shapedB, m0)
    let (story_stats, rating, fandoms, characters, crossover, shapedC, mB) := branch
    let m3 := dictPop mB "stats"
    let langV := (dictGet m3 "language").getD (JsonV.str "English")
    let m4 := dictPop m3 "language"
    let shapedD := if type_ = SiteKind.ao3 then dictSet shapedC "tags" (.obj m4) else shapedC
    let shapedE := dictUpdate shapedD
      [("language", langV), ("rating", rating), ("fandoms", fandoms),
       ("characters", characters), ("stats", story_stats), ("is_crossover", crossover)]
    let data1 := dictSet data "rawExtendedMeta" (.obj m4)
    shapeFinish data1 shapedE type_.tag
  else
    shapeFinish data shapedB type_.tag

def convMissing (k : String) : PyErr :=
  .validationError ("Object missing required field " ++ k)

def convBadType (k : String) : PyErr :=
  .validationError ("unexpected type at field " ++ k)

def convStr (d : PyDict) (k : String) : Except PyErr String :=
  match dictGet d k with
  | some (.str s) => .ok s
  | some _ => .error (convBadType k)
  | none => .error (convMissing k)

def convStrD (d : PyDict) (k dflt : String) : Except PyErr String :=
  match dictGet d k with
  | some (.str s) => .ok s
  | some _ => .error (convBadType k)
  | none => .ok dflt

def convInt (d : PyDict) (k : String) : Except PyErr Int :=
  match dictGet d k with
  | some (.int n) => .ok n
  | some _ => .error (convBadType k)
  | none => .error (convMissing k)

def convIntD (d : PyDict) (k : String) (dflt : Int) : Except PyErr Int :=
  match dictGet d k with
  | some (.int n) => .ok n
  | some _ => .error (convBadType k)
  | none => .ok dflt

/-- Strict bool conversion with a declared default: the default applies
only when the key is absent; an explicit null is a type mismatch, since
the field is not optional. -/
def convBoolD (d : PyDict) (k : String) (dflt : Bool) : Except PyErr Bool :=
  match dictGet d k with
  | some (.bool b) => .ok b
  | some _ => .error (convBadType k)
  | none => .ok dflt

def strListOf : List JsonV → Option (List String)
  | [] => some []
  | .str s :: rest => (strListOf rest).map (s :: ·)
  | _ => none

def convStrListD (d : PyDict) (k : String) : Except PyErr (List String) :=
  match dictGet d k with
  | some (.list xs) =>
    match strListOf xs with
    | some l => .ok l
    | none => .error (convBadType k)
  | some _ => .error (convBadType k)
  | none => .ok []

/-- Simplified model of the ISO-8601 acceptance of the msgspec datetime
conversion: a date, the T separator, and a second-resolution time, with
any suffix allowed. -/
def isIso8601 (s : String) : Bool :=
  match s.toList with
  | y1 :: y2 :: y3 :: y4 :: p1 :: mo1 :: mo2 :: p2 :: d1 :: d2 :: pt ::
    h1 :: h2 :: p3 :: mi1 :: mi2 :: p4 :: s1 :: s2 :: _ =>
    (p1 == '-' && p2 == '-' && pt == 'T' && p3 == ':' && p4 == ':') &&
    [y1, y2, y3, y4, mo1, mo2, d1, d2, h1, h2, mi1, mi2, s1, s2].all Char.isDigit
  | _ => false

def convIso (d : PyDict) (k : String) : Except PyErr String :=
  match dictGet d k with
  | some (.str s) => if isIso8601 s then .ok s else .error (convBadType k)
  | some _ => .error (convBadType k)
  | none => .error (convMissing k)

structure Author where
  id : Int
  local_id : String
  name : String
  url : String
  deriving DecidableEq

structure Tags where
  category : List String
  freeform : List String
  relationship : List String
  warning : List String
  deriving DecidableEq

structure AO3Stats where
  bookmarks : Int
  comments : Int
  hits : Int
  kudos : Int
  deriving DecidableEq

structure FFNStats where
  favorites : Int
  follows : Int
  reviews : Int
  deriving DecidableEq

structure NoStats where
  deriving DecidableEq

/-- AO3 story record (lines 116-179) with the inherited base fields
flattened as msgspec lays them out; created and updated are the ISO-8601
strings validated at conversion. -/
structure AO3Story where
  author : Author
  title : String
  description : String
  url : String
  chapters : Int
  created : String
  updated : String
  status : String
  words : Int
  language : String
  rating : String
  fandoms : List String
  characters : List String
  is_crossover : Bool
  tags : Tags
  stats : AO3Stats
  deriving DecidableEq

/-- FFN story record (lines 182-197) with the base fields flattened. -/
structure FFNStory where
  author : Author
  title : String
  description : String
  url : String
  chapters : Int
  created : String
  updated : String
  status : String
  words : Int
  language : String
  rating : String
  fandoms : List String
  characters : List String
  is_crossover : Bool
  genres : String
  stats : FFNStats
  deriving DecidableEq

/-- Fallback story record (lines 200-209) with the base fields flattened. -/
structure OtherStory where
  author : Author
  title : String
  description : String
  url : String
  chapters : Int
  created : String
  updated : String
  status : String
  words : Int
  language : String
  rating : String
  fandoms : List String
  characters : List String
  stats : NoStats
  deriving DecidableEq

/-- Tagged union Story (line 212). -/
inductive Story where
  | ao3 (s : AO3Story)
  | ffn (s : FFNStory)
  | other (s : OtherStory)
  deriving DecidableEq

def convertAuthor (d : PyDict) (k : String) : Except PyErr Author :=
  match dictGet d k with
  | some (.obj o) => do
    let i ← convInt o "id"
    let lid ← convStr o "local_id"
    let nm ← convStr o "name"
    let u ← convStr o "url"
    pure (Author.mk i lid nm u)
  | some _ => .error (convBadType k)
  | none => .error (convMissing k)

def convertTagsObj (o : PyDict) : Except PyErr Tags := do
  let c ← convStrListD o "category"
  let f ← convStrListD o "freeform"
  let r ← convStrListD o "relationship"
  let w ← convStrListD o "warning"
  pure (Tags.mk c f r w)

def convTags (d : PyDict) (k : String) : Except PyErr Tags :=
  match dictGet d k with
  | some (.obj o) => convertTagsObj o
  | some _ => .error (convBadType k)
  | none => .ok (Tags.mk [] [] [] [])

def convAO3Stats (d : PyDict) (k : String) : Except PyErr AO3Stats :=
  match dictGet d k with
  | some (.obj o) => do
    let bm ← convIntD o "bookmarks" 0
    let cm ← convIntD o "comments" 0
    let ht ← convIntD o "hits" 0
    let kd ← convIntD o "kudos" 0
    pure (AO3Stats.mk bm cm ht kd)
  | some _ => .error (convBadType k)
  | none => .ok (AO3Stats.mk 0 0 0 0)

def convFFNStats (d : PyDict) (k : String) : Except PyErr FFNStats :=
  match dictGet d k with
  | some (.obj o) => do
    let fav ← convIntD o "favorites" 0
    let fol ← convIntD o "follows" 0
    let rev ← convIntD o "reviews" 0
    pure (FFNStats.mk fav fol rev)
  | some _ => .error (convBadType k)
  | none => .ok (FFNStats.mk 0 0 0)

def convNoStats (d : PyDict) (k : String) : Except PyErr NoStats :=
  match dictGet d k with
  | some (.obj _) => .ok NoStats.mk
  | some _ => .error (convBadType k)
  | none => .ok NoStats.mk

def convertAO3 (d : PyDict) : Except PyErr Story := do
  let author ← convertAuthor d "author"
  let title ← convStr d "title"
  let description ← convStr d "description"
  let url ← convStr d "url"
  let chapters ← convInt d "chapters"
  let created ← convIso d "created"
  let updated ← convIso d "updated"
  let status ← convStr d "status"
  let words ← convInt d "words"
  let language ← convStrD d "language" "English"
  let rating ← convStrD d "rating" "No Rating"
  let fandoms ← convStrListD d "fandoms"
  let characters ← convStrListD d "characters"
  let ic ← convBoolD d "is_crossover" false
  let tags ← convTags d "tags"
  let stats ← convAO3Stats d "stats"
  pure (Story.ao3 (AO3Story.mk author title description url chapters created
    updated status words language rating fandoms characters ic tags stats))

def convertFFN (d : PyDict) : Except PyErr Story := do
  let author ← convertAuthor d "author"
  let title ← convStr d "title"
  let description ← convStr d "description"
  let url ← convStr d "url"
  let chapters ← convInt d "chapters"
  let created ← convIso d "created"
  let updated ← convIso d "updated"
  let status ← convStr d "status"
  let words ← convInt d "words"
  let language ← convStrD d "language" "English"
  let rating ← convStrD d "rating" "No Rating"
  let fandoms ← convStrListD d "fandoms"
  let characters ← convStrListD d "characters"
  let ic ← convBoolD d "is_crossover" false
  let genres ← convStrD d "genres" ""
  let stats ← convFFNStats d "stats"
  pure (Story.ffn (FFNStory.mk author title description url chapters created
    updated status words language rating fandoms characters ic genres stats))

def convertOther (d : PyDict) : Except PyErr Story := do
  let author ← convertAuthor d "author"
  let title ← convStr d "title"
  let description ← convStr d "description"
  let url ← convStr d "url"
  let chapters ← convInt d "chapters"
  let created ← convIso d "created"
  let updated ← convIso d "updated"
  let status ← convStr d "status"
  let words ← convInt d "words"
  let language ← convStrD d "language" "English"
  let rating ← convStrD d "rating" "No Rating"
  let fandoms ← convStrListD d "fandoms"
  let characters ← convStrListD d "characters"
  let stats ← convNoStats d "stats"
  pure (Story.other (OtherStory.mk author title description url chapters created
    updated status words language rating fandoms characters stats))

/-- Model of msgspec.convert(obj, type=Story): the union dispatches on the
type tag written by shape_data; unknown keys of each struct are ignored;
an explicit null never matches a non-optional field, so a declared default
applies only when its key is absent. -/
def convertStory (d : PyDict) : Except PyErr Story :=
  match dictGet d "type" with
  | some (.str t) =>
    if t = "ao3" then convertAO3 d
    else if t = "ffn" then convertFFN d
    else if t = "other" then convertOther d
    else .error (.validationError "invalid union tag")
  | _ => .error (.validationError "invalid union tag")

/-- Model of parse_story (lines 334-337) applied to the decoded payload:
reshape, then convert to the tagged Story union. -/
def parse_story (data : PyDict) : Except PyErr Story := do
  let shaped ← shape_data data
  convertStory shaped

/-- Exception classes caught by the client around parsing (lines 462 and
487): msgspec errors, modelled by validationError, and KeyError. -/
def caughtByClient : PyErr → Bool
  | .keyError _ => true
  | .validationError _ => true
  | _ => false

/-- Error handling of Client.get_story_metadata (lines 459-464) after the
HTTP fetch: caught parse failures are wrapped in a FicHubException chained
to the original error; the query url interpolated into the message is
elided from the model. -/
def get_story_metadata_shaped (data : PyDict) : Except PyErr Story :=
  match parse_story data with
  | .ok s => .ok s
  | .error e =>
    if caughtByClient e then
      .error (.fichubError "Unable to load story metadata from url" e)
    else .error e

structure DownloadUrls where
  epub : String
  html : String
  mobi : String
  pdf : String
  deriving DecidableEq

structure StoryDownload where
  urls : DownloadUrls
  meta : Option Story
  deriving DecidableEq

/-- Model of msgspec.convert(data, type=DownloadUrls, dec_hook=...) in
Client.get_story_downloads (lines 490-495): msgspec invokes a dec_hook
only for types it does not support natively, and every field here is a
plain str, so the urljoin hook passed in the source never runs and the
four values are taken verbatim. -/
def convertDownloadUrls (v : JsonV) : Except PyErr DownloadUrls :=
  match v with
  | .obj o => do
    let e ← convStr o "epub"
    let h ← convStr o "html"
    let m ← convStr o "mobi"
    let p ← convStr o "pdf"
    pure (DownloadUrls.mk e h m p)
  | _ => .error (.validationError "expected object for download urls")

/-- Model of Client.get_story_downloads (lines 483-500) after the HTTP
fetch and JSON decode: a meta failure of a caught class (MsgspecError or
KeyError) degrades meta to None, any other exception from the meta
attempt propagates, and a caught urls failure raises a FicHubException
chained to its cause. -/
def parse_story_download (data : PyDict) : Except PyErr StoryDownload := do
  let metaAttempt : Except PyErr Story := do
    let mv ← getItem data "meta"
    let md ← expectObj mv .typeError
    let sh ← shape_data md
    convertStory sh
  let meta ←
    match metaAttempt with
    | .ok s => pure (some s)
    | .error e => if caughtByClient e then pure none else throw e
  let urlsAttempt : Except PyErr DownloadUrls := do
    let uv ← getItem data "urls"
    convertDownloadUrls uv
  match urlsAttempt with
  | .ok urls => pure (StoryDownload.mk urls meta)
  | .error e =>
    if caughtByClient e then
      throw (.fichubError "Unable to load story download urls from url" e)
    else throw e

/-- Concurrency limit chosen by Client.__init__ (lines 355-365): a missing,
falsy or out-of-range argument is silently replaced by 2; None is modelled
by Option.none and Python integer truthiness is the first conjunct. -/
def client_init_sema_limit (semaLimit : Option Int) : Int :=
  match semaLimit with
  | some v => if v ≠ 0 ∧ 1 ≤ v ∧ v ≤ 3 then v else 2
  | none => 2

/-- Setter of Client.sema_limit (lines 387-394): out-of-range values raise
ValueError with this message; in-range values are stored as given. -/
def sema_limit_setter (value : Int) : Except String Int :=
  if 1 ≤ value ∧ value ≤ 3 then .ok value
  else .error "To prevent hitting the FicHub API too much, this limit has to be between 1 and 3 inclusive."

structure StructParams where
  frozen : Bool
  tag : Option String

/-- Declaration parameters of the story classes (lines 164, 182, 200):
every variant is declared frozen, carrying its union tag. -/
def storyStructParams : Story → StructParams
  | .ao3 _ => StructParams.mk true (some "ao3")
  | .ffn _ => StructParams.mk true (some "ffn")
  | .other _ => StructParams.mk true (some "other")

/-- msgspec semantics for frozen structs: attribute assignment on an
instance raises AttributeError exactly when the class is frozen, so a
value of a frozen class admits no field mutation. -/
def storySetAttrRaises (s : Story) : Bool :=
  (storyStructParams s).frozen

def strHash (s : String) : Nat :=
  s.toList.foldl (fun a c => a * 131 + c.toNat) 7

def strListHash (l : List String) : Nat :=
  l.foldl (fun a s => a * 257 + strHash s) 11

def intHash (n : Int) : Nat :=
  2 * n.natAbs + (if n < 0 then 1 else 0)

def authorHash (a : Author) : Nat :=
  ((intHash a.id * 31 + strHash a.local_id) * 31 + strHash a.name) * 31 + strHash a.url

def tagsHash (t : Tags) : Nat :=
  ((strListHash t.category * 31 + strListHash t.freeform) * 31 +
    strListHash t.relationship) * 31 + strListHash t.warning

def baseHash (author : Author) (title description url : String) (chapters : Int)
    (created updated status : String) (words : Int) (language rating : String)
    (fandoms characters : List String) : Nat :=
  ((((((((((((authorHash author * 31 + strHash title) * 31 + strHash description) * 31 +
    strHash url) * 31 + intHash chapters) * 31 + strHash created) * 31 +
    strHash updated) * 31 + strHash status) * 31 + intHash words) * 31 +
    strHash language) * 31 + strHash rating) * 31 + strListHash fandoms) * 31 +
    strListHash characters)

/-- Hash of the field tuple of a story variant, one concrete model of the
field-based hash that msgspec generates for frozen structs. -/
def storyFieldsHash : Story → Nat
  | .ao3 a =>
    ((baseHash a.author a.title a.description a.url a.chapters a.created a.updated
      a.status a.words a.language a.rating a.fandoms a.characters * 31 +
      cond a.is_crossover 1 0) * 31 + tagsHash a.tags) * 31 +
      (((intHash a.stats.bookmarks * 31 + intHash a.stats.comments) * 31 +
        intHash a.stats.hits) * 31 + intHash a.stats.kudos)
  | .ffn a =>
    ((baseHash a.author a.title a.description a.url a.chapters a.created a.updated
      a.status a.words a.language a.rating a.fandoms a.characters * 31 +
      cond a.is_crossover 1 0) * 31 + strHash a.genres) * 31 +
      ((intHash a.stats.favorites * 31 + intHash a.stats.follows) * 31 +
        intHash a.stats.reviews)
  | .other a =>
    baseHash a.author a.title a.description a.url a.chapters a.created a.updated
      a.status a.words a.language a.rating a.fandoms a.characters * 31 + 17

/-- msgspec semantics: a frozen struct is hashable, with a hash computed
from its field values; a non-frozen struct with the default eq setting has
no hash. -/
def storyPyHash (s : Story) : Option Nat :=
  if (storyStructParams s).frozen then some (storyFieldsHash s) else none

/-- Field-by-field agreement of two story values of the same variant, the
relation that the generated msgspec equality decides. -/
def storyFieldsEq : Story → Story → Prop
  | .ao3 a, .ao3 b =>
    a.author = b.author ∧ a.title = b.title ∧ a.description = b.description ∧
    a.url = b.url ∧ a.chapters = b.chapters ∧ a.created = b.created ∧
    a.updated = b.updated ∧ a.status = b.status ∧ a.words = b.words ∧
    a.language = b.language ∧ a.rating = b.rating ∧ a.fandoms = b.fandoms ∧
    a.characters = b.characters ∧ a.is_crossover = b.is_crossover ∧
    a.tags = b.tags ∧ a.stats = b.stats
  | .ffn a, .ffn b =>
    a.author = b.author ∧ a.title = b.title ∧ a.description = b.description ∧
    a.url = b.url ∧ a.chapters = b.chapters ∧ a.created = b.created ∧
    a.updated = b.updated ∧ a.status = b.status ∧ a.words = b.words ∧
    a.language = b.language ∧ a.rating = b.rating ∧ a.fandoms = b.fandoms ∧
    a.characters = b.characters ∧ a.is_crossover = b.is_crossover ∧
    a.genres = b.genres ∧ a.stats = b.stats
  | .other a, .other b =>
    a.author = b.author ∧ a.title = b.title ∧ a.description = b.description ∧
    a.url = b.url ∧ a.chapters = b.chapters ∧ a.created = b.created ∧
    a.updated = b.updated ∧ a.status = b.status ∧ a.words = b.words ∧
    a.language = b.language ∧ a.rating = b.rating ∧ a.fandoms = b.fandoms ∧
    a.characters = b.characters ∧ a.stats = b.stats
  | _, _ => False

/-- Reads a component of a typed Tags value by extended-metadata key name;
the four declared categories are the only components a Tags value has. -/
def tagsLookup (t : Tags) (k : String) : Option (List String) :=
  if k = "category" then some t.category
  else if k = "freeform" then some t.freeform
  else if k = "relationship" then some t.relationship
  else if k = "warning" then some t.warning
  else none

/-- Tags component of a story, present only on the AO3 variant. -/
def storyTags : Story → Option Tags
  | .ao3 a => some a.tags
  | _ => none

/-- Modelled from the claim wording for comparison: a classifier that
checks the archiveofourown.org substring first, as the specification
states, rather than in the order the code checks. -/
def classifySiteClaimed (src : String) : SiteKind :=
  if pyContains src "archiveofourown.org" then .ao3
  else if pyContains src "fanfiction.net" then .ffn
  else .other

/-- Modelled from the claim wording for comparison: fandom extraction that
splits raw_fandom on every occurrence of the separator, then strips the
trailing Crossover marker from the last part when several parts result. -/
def ffnFandomsClaimed (raw : String) : List String :=
  let fandoms := pySplit raw " + "
  if fandoms.length > 1 then
    fandoms.dropLast ++ [pyRemoveSuffix (fandoms.getLastD "") " Crossover"]
  else fandoms

/-- Fandoms component of a story, common to all variants. -/
def storyFandoms : Story → List String
  | .ao3 a => a.fandoms
  | .ffn a => a.fandoms
  | .other a => a.fandoms

/-- Crossover flag of a story, absent on the fallback variant. -/
def storyIsCrossover : Story → Option Bool
  | .ao3 a => some a.is_crossover
  | .ffn a => some a.is_crossover
  | .other _ => none

/-- Sample AO3 extended metadata, holding the consumed keys plus the four
declared tag categories and one extra leftover key. -/
def ao3Meta : PyDict :=
  [("stats", .obj [("bookmarks", .str "1"), ("comments", .str "2"),
     ("hits", .str "1,003"), ("kudos", .str "4")]),
   ("rating", .list [.str "Teen"]),
   ("fandom", .list [.str "F1", .str "F2"]),
   ("character", .list [.str "C1"]),
   ("language", .str "English"),
   ("category", .list [.str "Gen"]),
   ("freeform", .list [.str "Fluff"]),
   ("relationship", .list [.str "R1"]),
   ("warning", .list [.str "NoWarn"]),
   ("category_hrefs", .list [.str "/tags/gen"])]

/-- State of the extended-metadata object after the four pops the AO3 path
performs on it: fandom, character, stats and language are gone, rating and
everything else remain. -/
def ao3Leftover : PyDict :=
  [("rating", .list [.str "Teen"]),
   ("category", .list [.str "Gen"]),
   ("freeform", .list [.str "Fluff"]),
   ("relationship", .list [.str "R1"]),
   ("warning", .list [.str "NoWarn"]),
   ("category_hrefs", .list [.str "/tags/gen"])]

/-- Sample AO3 payload as decoded from the metadata endpoint. -/
def ao3Payload : PyDict :=
  [("source", .str "https://archiveofourown.org/works/1"),
   ("author", .str "someauthor"),
   ("authorId", .int 7),
   ("authorLocalId", .str "someauthor"),
   ("authorUrl", .str "/users/someauthor"),
   ("title", .str "T"),
   ("description", .str "D"),
   ("chapters", .int 3),
   ("created", .str "2023-01-01T00:00:00"),
   ("updated", .str "2023-02-01T00:00:00"),
   ("status", .str "complete"),
   ("words", .int 1000),
   ("rawExtendedMeta", .obj ao3Meta)]

/-- Sample FFN payload whose raw_fandom holds the separator twice. -/
def ffnPayloadMulti : PyDict :=
  [("source", .str "https://www.fanfiction.net/s/1/1/x"),
   ("author", .str "someone"),
   ("authorId", .int 7),
   ("authorLocalId", .str "7"),
   ("authorUrl", .str "https://www.fanfiction.net/u/7/someone"),
   ("title", .str "T"),
   ("description", .str "D"),
   ("chapters", .int 3),
   ("created", .str "2023-01-01T00:00:00"),
   ("updated", .str "2023-02-01T00:00:00"),
   ("status", .str "complete"),
   ("words", .int 1000),
   ("rawExtendedMeta", .obj
     [("rated", .str "T"),
      ("raw_fandom", .str "A + B + C Crossover"),
      ("characters", .str "X, Y"),
      ("crossover", .bool true)])]

/-- Sample FFN payload with the crossover example fandom of the
specification. -/
def ffnPayloadHP : PyDict :=
  [("source", .str "https://www.fanfiction.net/s/2/1/x"),
   ("author", .str "someone"),
   ("authorId", .int 7),
   ("authorLocalId", .str "7"),
   ("authorUrl", .str "https://www.fanfiction.net/u/7/someone"),
   ("title", .str "T"),
   ("description", .str "D"),
   ("chapters", .int 3),
   ("created", .str "2023-01-01T00:00:00"),
   ("updated", .str "2023-02-01T00:00:00"),
   ("status", .str "complete"),
   ("words", .int 1000),
   ("rawExtendedMeta", .obj
     [("rated", .str "T"),
      ("raw_fandom", .str "Harry Potter + Naruto Crossover"),
      ("characters", .str "[Harry P., Naruto U.]"),
      ("crossover", .bool true)])]

/-- FFN extended metadata with any rated string and no crossover key. -/
def ffnMetaNoCrossover (r : String) : PyDict :=
  [("rated", .str r),
   ("raw_fandom", .str "Harry Potter"),
   ("characters", .str "Harry P.")]

/-- FFN payload family whose extended metadata is present and truthy but
lacks the crossover key; the rated string is arbitrary. -/
def ffnFrameNoCrossover (r : String) : PyDict :=
  [("source", .str "https://www.fanfiction.net/s/1/1/x"),
   ("author", .str "someone"),
   ("authorId", .int 7),
   ("authorLocalId", .str "7"),
   ("authorUrl", .str "https://www.fanfiction.net/u/7/someone"),
   ("title", .str "T"),
   ("description", .str "D"),
   ("chapters", .int 3),
   ("created", .str "2023-01-01T00:00:00"),
   ("updated", .str "2023-02-01T00:00:00"),
   ("status", .str "complete"),
   ("words", .int 1000),
   ("rawExtendedMeta", .obj (ffnMetaNoCrossover r))]

/-- Download payload with a well-formed urls object of relative paths and
a meta object that fails reshaping with a KeyError (no source key). -/
def dlPayloadRelative : PyDict :=
  [("meta", .obj [("title", .str "T")]),
   ("urls", .obj
     [("epub", .str "/cache/epub/x.epub"),
      ("html", .str "/cache/html/x.html"),
      ("mobi", .str "/cache/mobi/x.mobi"),
      ("pdf", .str "/cache/pdf/x.pdf")])]

/-- Download payload with a well-formed urls object and a meta object that
fails reshaping with a TypeError: its source value is an integer, so the
substring test of the site classifier raises. -/
def dlPayloadBadMetaType : PyDict :=
  [("meta", .obj [("source", .int 5)]),
   ("urls", .obj
     [("epub", .str "/cache/epub/x.epub"),
      ("html", .str "/cache/html/x.html"),
      ("mobi", .str "/cache/mobi/x.mobi"),
      ("pdf", .str "/cache/pdf/x.pdf")])]

/-- Sample story value of the fallback variant. -/
def sampleStory : Story :=
  Story.other (OtherStory.mk (Author.mk 1 "1" "a" "https://example.com/u/1")
    "T" "D" "https://example.com/s/1" 1 "2023-01-01T00:00:00"
    "2023-01-01T00:00:00" "complete" 10 "English" "No Rating" [] [] NoStats.mk)

theorem exBind_ok {α β : Type} {x : Except PyErr α} {f : α → Except PyErr β} {b : β}
    (h : (x >>= f) = .ok b) : ∃ a, x = .ok a ∧ f a = .ok b := by
  cases x with
  | error e => exact Except.noConfusion h
  | ok a => exact ⟨a, rfl, h⟩

theorem dictGet_set_self (d : PyDict) (k : String) (v : JsonV) :
    dictGet (dictSet d k v) k = some v := by
  induction d with
  | nil => simp [dictSet, dictGet]
  | cons p d ih =>
    obtain ⟨k0, v0⟩ := p
    by_cases hp : k0 = k
    · simp [dictSet, dictGet, hp]
    · simpa [dictSet, dictGet, hp] using ih

theorem dictGet_set_ne (d : PyDict) (k k2 : String) (v : JsonV) (h : k ≠ k2) :
    dictGet (dictSet d k2 v) k = dictGet d k := by
  induction d with
  | nil => simp [dictSet, dictGet, Ne.symm h]
  | cons p d ih =>
    obtain ⟨k0, v0⟩ := p
    by_cases hp : k0 = k2
    · subst hp
      simp [dictSet, dictGet, Ne.symm h]
    · by_cases hk : k0 = k
      · simp [dictSet, dictGet, hp, hk, h]
      · simpa [dictSet, dictGet, hp, hk] using ih

theorem dictGet_pop_self (d : PyDict) (k : String) :
    dictGet (dictPop d k) k = none := by
  induction d with
  | nil => simp [dictPop, dictGet]
  | cons p d ih =>
    obtain ⟨k0, v0⟩ := p
    by_cases hp : k0 = k
    · simpa [dictPop, hp] using ih
    · simpa [dictPop, dictGet, hp] using ih

theorem dictGet_pop_ne (d : PyDict) (k k2 : String) (h : k ≠ k2) :
    dictGet (dictPop d k2) k = dictGet d k := by
  induction d with
  | nil => simp [dictPop]
  | cons p d ih =>
    obtain ⟨k0, v0⟩ := p
    by_cases hp : k0 = k2
    · subst hp
      simpa [dictPop, dictGet, Ne.symm h] using ih
    · by_cases hk : k0 = k
      · simp [dictPop, dictGet, hp, hk, h]
      · simpa [dictPop, dictGet, hp, hk] using ih

theorem dictPop_mem (m : PyDict) (k : String) (v : JsonV) (k2 : String)
    (hmem : (k, v) ∈ m) (hne : k ≠ k2) : (k, v) ∈ dictPop m k2 := by
  induction m with
  | nil => cases hmem
  | cons p d ih =>
    obtain ⟨k0, v0⟩ := p
    by_cases hp : k0 = k2
    · subst hp
      rcases List.mem_cons.mp hmem with heq | hmem2
      · exact absurd (congrArg Prod.fst heq) hne
      · simpa [dictPop] using ih hmem2
    · rcases List.mem_cons.mp hmem with heq | hmem2
      · simp [dictPop, hp, heq]
      · simp [dictPop, hp]
        exact Or.inr (ih hmem2)

theorem dictGet_update_none (u d : PyDict) (k : String) (h : dictGet u k = none) :
    dictGet (dictUpdate d u) k = dictGet d k := by
  induction u generalizing d with
  | nil => rfl
  | cons p u ih =>
    obtain ⟨k0, v0⟩ := p
    by_cases hp : k0 = k
    · simp [dictGet, hp] at h
    · simp only [dictGet, if_neg hp] at h
      show dictGet (dictUpdate (dictSet d k0 v0) u) k = dictGet d k
      rw [ih (dictSet d k0 v0) h, dictGet_set_ne d k k0 v0 (fun hh => hp hh.symm)]

theorem authorScan_foldl_ne (l : PyDict) (acc : PyDict) (k : String)
    (h : k ≠ "author") :
    dictGet (l.foldl (fun shaped kv => authorScanStep shaped kv.1 kv.2) acc) k =
      dictGet acc k := by
  induction l generalizing acc with
  | nil => rfl
  | cons p l ih =>
    show dictGet (l.foldl _ (authorScanStep acc p.1 p.2)) k = dictGet acc k
    rw [ih (authorScanStep acc p.1 p.2)]
    unfold authorScanStep
    by_cases hc : pyContains p.1 "author" = true
    · rw [if_pos hc, dictGet_set_ne _ _ _ _ h]
    · rw [if_neg hc]

theorem authorScan_get_ne (data : PyDict) (k : String) (h : k ≠ "author") :
    dictGet (authorScan data) k = none := by
  unfold authorScan
  rw [authorScan_foldl_ne data [] k h]
  rfl

theorem shapeFinish_source (dataX sh : PyDict) (tg : String) (d : PyDict)
    (h : shapeFinish dataX sh tg = .ok d) (hsh : dictGet sh "source" = none) :
    dictGet d "source" = none := by
  unfold shapeFinish at h
  obtain ⟨sp, hpop, h⟩ := exBind_ok h
  have hd : d = dictUpdate sp.2 (dictUpdate sh [("url", sp.1), ("type", .str tg)]) := by
    cases h
    rfl
  subst hd
  have h1 : dictGet (dictUpdate sh [("url", sp.1), ("type", .str tg)]) "source" = none := by
    show dictGet (dictSet (dictSet sh "url" sp.1) "type" (.str tg)) "source" = none
    rw [dictGet_set_ne _ _ _ _ (by decide), dictGet_set_ne _ _ _ _ (by decide)]
    exact hsh
  rw [dictGet_update_none _ _ _ h1]
  unfold popItem at hpop
  cases hget : dictGet dataX "source" with
  | none => rw [hget] at hpop; exact Except.noConfusion hpop
  | some v =>
    rw [hget] at hpop
    have : sp = (v, dictPop dataX "source") := by
      cases hpop
      rfl
    rw [this]
    exact dictGet_pop_self dataX "source"

theorem exIte_ok {α : Type} {c : Prop} [Decidable c] {x y : Except PyErr α} {b : α}
    (h : (if c then x else y) = .ok b) : (c ∧ x = .ok b) ∨ (¬c ∧ y = .ok b) := by
  by_cases hc : c
  · rw [if_pos hc] at h
    exact Or.inl ⟨hc, h⟩
  · rw [if_neg hc] at h
    exact Or.inr ⟨hc, h⟩

theorem shape_data_removes_source (data d : PyDict) (h : shape_data data = .ok d) :
    dictGet d "source" = none := by
  unfold shape_data at h
  obtain ⟨srcV, h1, h⟩ := exBind_ok h
  obtain ⟨src, h2, h⟩ := exBind_ok h
  have hA : dictGet (authorScan data) "source" = none :=
    authorScan_get_ne data _ (by decide)
  cases hcls : classifySite src with
  | ffn =>
    rw [hcls] at h
    obtain ⟨shB, hpure, h⟩ := exBind_ok h
    cases hpure
    obtain ⟨metaV, h4, h⟩ := exBind_ok h
    rcases exIte_ok h with ⟨ht, h⟩ | ⟨ht, h⟩
    · obtain ⟨m0, h5, h⟩ := exBind_ok h
      obtain ⟨a1, hb1, h⟩ := exBind_ok h
      obtain ⟨a2, hb2, h⟩ := exBind_ok h
      obtain ⟨a3, hb3, h⟩ := exBind_ok h
      obtain ⟨a4, hb4, h⟩ := exBind_ok h
      obtain ⟨a5, hb5, h⟩ := exBind_ok h
      obtain ⟨a6, hb6, h⟩ := exBind_ok h
      obtain ⟨a7, hb7, h⟩ := exBind_ok h
      obtain ⟨a8, hb8, h⟩ := exBind_ok h
      obtain ⟨y, hy, h⟩ := exBind_ok h
      cases hy
      apply shapeFinish_source _ _ _ _ h
      rw [dictGet_update_none]
      · rw [if_neg (by decide : ¬ (SiteKind.ffn = SiteKind.ao3))]
        rw [dictGet_set_ne _ _ _ _ (by decide)]
        exact hA
      · rfl
    · exact shapeFinish_source _ _ _ _ h hA
  | ao3 =>
    rw [hcls] at h
    obtain ⟨av, ha1, h⟩ := exBind_ok h
    obtain ⟨ad, ha2, h⟩ := exBind_ok h
    obtain ⟨uv, ha3, h⟩ := exBind_ok h
    obtain ⟨us, ha4, h⟩ := exBind_ok h
    obtain ⟨shB, hpure, h⟩ := exBind_ok h
    cases hpure
    have hB : dictGet (dictSet (authorScan data) "author"
        (.obj (dictSet ad "url"
          (.str (urljoin "https://www.archiveofourown.org" us))))) "source" = none := by
      rw [dictGet_set_ne _ _ _ _ (by decide)]
      exact hA
    obtain ⟨metaV, h4, h⟩ := exBind_ok h
    rcases exIte_ok h with ⟨ht, h⟩ | ⟨ht, h⟩
    · obtain ⟨m0, h5, h⟩ := exBind_ok h
      obtain ⟨a1, hb1, h⟩ := exBind_ok h
      obtain ⟨a2, hb2, h⟩ := exBind_ok h
      obtain ⟨a3, hb3, h⟩ := exBind_ok h
      obtain ⟨a4, hb4, h⟩ := exBind_ok h
      obtain ⟨a5, hb5, h⟩ := exBind_ok h
      obtain ⟨a6, hb6, h⟩ := exBind_ok h
      obtain ⟨a7, hb7, h⟩ := exBind_ok h
      obtain ⟨a8, hb8, h⟩ := exBind_ok h
      obtain ⟨a9, hb9, h⟩ := exBind_ok h
      obtain ⟨a10, hb10, h⟩ := exBind_ok h
      obtain ⟨y, hy, h⟩ := exBind_ok h
      cases hy
      apply shapeFinish_source _ _ _ _ h
      rw [dictGet_update_none]
      · rw [if_pos rfl]
        rw [dictGet_set_ne _ _ _ _ (by decide)]
        exact hB
      · rfl
    · exact shapeFinish_source _ _ _ _ h hB
  | other =>
    rw [hcls] at h
    obtain ⟨shB, hpure, h⟩ := exBind_ok h
    cases hpure
    obtain ⟨metaV, h4, h⟩ := exBind_ok h
    rcases exIte_ok h with ⟨ht, h⟩ | ⟨ht, h⟩
    · obtain ⟨m0, h5, h⟩ := exBind_ok h
      obtain ⟨y, hy, h⟩ := exBind_ok h
      cases hy
      apply shapeFinish_source _ _ _ _ h
      rw [dictGet_update_none]
      · rw [if_neg (by decide : ¬ (SiteKind.other = SiteKind.ao3))]
        exact hA
      · rfl
    · exact shapeFinish_source _ _ _ _ h hA

theorem strListOf_map (l : List String) : strListOf (l.map JsonV.str) = some l := by
  induction l with
  | nil => rfl
  | cons x xs ih => simp [strListOf, ih]

theorem toLower_not_upper (c : Char) (h : c.isUpper = true) :
    (Char.toLower c).isUpper = false := by
  have h2 : (65 : UInt32) ≤ c.val ∧ c.val ≤ (90 : UInt32) := by
    simpa [Char.isUpper, Bool.and_eq_true, decide_eq_true_iff] using h
  have hlo : 65 ≤ c.val.toNat := UInt32.le_toNat_of_le (by decide) h2.1
  have hhi : c.val.toNat ≤ 90 := UInt32.toNat_le_of_le (by decide) h2.2
  have hcond : Char.toNat c ≥ 65 ∧ Char.toNat c ≤ 90 := ⟨hlo, hhi⟩
  unfold Char.toLower
  rw [if_pos hcond]
  have hvalid : (Char.toNat c + 32).isValidChar := by
    left
    omega
  rw [Char.ofNat, dif_pos hvalid]
  simp [Char.isUpper, Char.ofNatAux, UInt32.le_def, BitVec.le_def]
  omega

theorem camelChunk_not_upper (prev : Option Char) (c : Char) (next : Option Char)
    (x : Char) (hx : x ∈ camelChunk prev c next) : x.isUpper = false := by
  unfold camelChunk at hx
  by_cases hc : c.isUpper
  · rw [if_neg (by simp [hc])] at hx
    by_cases hf : camelFused prev next = true
    · rw [if_pos hf] at hx
      simp only [List.mem_singleton] at hx
      subst hx
      exact toLower_not_upper c hc
    · rw [if_neg hf] at hx
      simp only [List.mem_cons, List.mem_singleton, List.not_mem_nil, or_false] at hx
      rcases hx with rfl | rfl
      · decide
      · exact toLower_not_upper c hc
  · rw [if_pos (by simp [hc])] at hx
    simp only [List.mem_singleton] at hx
    subst hx
    simpa using hc

theorem camelGo_not_upper (l : List Char) (prev : Option Char) (x : Char)
    (hx : x ∈ camelGo prev l) : x.isUpper = false := by
  induction l generalizing prev with
  | nil => cases hx
  | cons c rest ih =>
    unfold camelGo at hx
    rcases List.mem_append.mp hx with hc | hr
    · exact camelChunk_not_upper prev c rest.head? x hc
    · exact ih (some c) hr

theorem dropWhile_underscore_head (l : List Char) :
    (l.dropWhile (fun c => c = '_')).head? ≠ some '_' := by
  induction l with
  | nil => simp [List.dropWhile]
  | cons c rest ih =>
    by_cases hc : c = '_'
    · simpa [List.dropWhile, hc] using ih
    · simp [List.dropWhile, hc]

theorem pySplitOnce_length_le (s sep : String) : (pySplitOnce s sep).length ≤ 2 := by
  unfold pySplitOnce
  rcases h : pySplit s sep with _ | ⟨x, _ | ⟨y, more⟩⟩ <;> simp

theorem ffnFandoms_length_le (raw : String) : (ffnFandoms raw).length ≤ 2 := by
  unfold ffnFandoms
  by_cases hl : (pySplitOnce raw " + ").length > 1
  · rw [if_pos hl]
    have := pySplitOnce_length_le raw " + "
    simp [List.length_dropLast]
    omega
  · rw [if_neg hl]
    exact pySplitOnce_length_le raw " + "

set_option maxHeartbeats 4000000

/-- C1 counterexample: on a URL containing both site substrings the code
classifies FFN, not AO3 as the claim states; the claim-ordered classifier
disagrees with the one of the code at this input. -/
theorem c1_site_classify_counterexample :
    pyContains "https://www.fanfiction.net/archiveofourown.org" "archiveofourown.org" = true ∧
    classifySite "https://www.fanfiction.net/archiveofourown.org" = SiteKind.ffn ∧
    classifySiteClaimed "https://www.fanfiction.net/archiveofourown.org" = SiteKind.ao3 ∧
    SiteKind.ffn ≠ SiteKind.ao3 :=
  ⟨rfl, rfl, rfl, by decide⟩

/-- C1 amended: site classification returns FFN whenever the URL contains
fanfiction.net (this check runs first and wins any tie), AO3 when it does
not but contains archiveofourown.org, and Other when it contains neither;
it is a function, hence deterministic. -/
theorem c1_site_classify_amended (s : String) :
    (pyContains s "fanfiction.net" = true → classifySite s = SiteKind.ffn) ∧
    (pyContains s "fanfiction.net" = false → pyContains s "archiveofourown.org" = true →
      classifySite s = SiteKind.ao3) ∧
    (pyContains s "fanfiction.net" = false → pyContains s "archiveofourown.org" = false →
      classifySite s = SiteKind.other) ∧
    classifySite s = classifySite s := by
  refine ⟨fun h => ?_, fun h1 h2 => ?_, fun h1 h2 => ?_, rfl⟩
  · simp [classifySite, h]
  · simp [classifySite, h1, h2]
  · simp [classifySite, h1, h2]

/-- C1 witness: the amended classification law evaluated at one URL of
each kind. -/
theorem c1_site_classify_witness :
    classifySite "https://www.fanfiction.net/s/1" = SiteKind.ffn ∧
    classifySite "https://archiveofourown.org/works/1" = SiteKind.ao3 ∧
    classifySite "https://example.com/story/1" = SiteKind.other :=
  ⟨(c1_site_classify_amended "https://www.fanfiction.net/s/1").1 rfl,
   (c1_site_classify_amended "https://archiveofourown.org/works/1").2.1 rfl rfl,
   (c1_site_classify_amended "https://example.com/story/1").2.2.1 rfl rfl⟩

/-- C2 counterexample: the code splits raw_fandom at the first separator
occurrence only, so a value with two separators yields two parts, not the
three parts the claim derives by splitting on every occurrence. -/
theorem c2_ffn_fandoms_counterexample :
    ffnFandoms "A + B + C Crossover" = ["A", "B + C"] ∧
    ffnFandomsClaimed "A + B + C Crossover" = ["A", "B", "C"] ∧
    (["A", "B + C"] : List String) ≠ ["A", "B", "C"] ∧
    (parse_story ffnPayloadMulti).map storyFandoms = .ok ["A", "B + C"] :=
  ⟨rfl, rfl, by decide, rfl⟩

/-- C2 amended: raw_fandom is split at the first separator occurrence only
(maxsplit one), yielding at most two parts; when two parts result the
trailing Crossover marker is stripped from the last, so the specification
example still derives fandoms Harry Potter and Naruto with the crossover
flag set. -/
theorem c2_ffn_fandoms_amended :
    (∀ s : String, (ffnFandoms s).length ≤ 2) ∧
    ffnFandoms "Harry Potter + Naruto Crossover" = ["Harry Potter", "Naruto"] ∧
    (parse_story ffnPayloadHP).map (fun st => (storyFandoms st, storyIsCrossover st)) =
      .ok (["Harry Potter", "Naruto"], some true) :=
  ⟨ffnFandoms_length_le, rfl, rfl⟩

/-- C3 counterexample: the conversion of URLId splits before the final
letter of the uppercase run because a lowercase letter follows it, giving
url_id rather than the fully fused urlid the claim describes. -/
theorem c3_camel_counterexample :
    _camel_to_snake_case "URLId" = "url_id" ∧ ("url_id" : String) ≠ "urlid" :=
  ⟨rfl, by decide⟩

/-- C3 amended: an uppercase letter stays fused only when both its
previous character and its following one (when present) are non-lowercase,
so the last letter of an uppercase run followed by a lowercase letter
starts a new segment: URLId maps to url_id; the suffix examples Url to url
and LocalId to local_id hold, every character of any output is
non-uppercase, and no output starts with an underscore. -/
theorem c3_camel_amended :
    _camel_to_snake_case "URLId" = "url_id" ∧
    _camel_to_snake_case "Url" = "url" ∧
    _camel_to_snake_case "LocalId" = "local_id" ∧
    _camel_to_snake_case "authorUrl" = "author_url" ∧
    (∀ s : String, ∀ c ∈ (_camel_to_snake_case s).toList, c.isUpper = false) ∧
    (∀ s : String, (_camel_to_snake_case s).toList.head? ≠ some '_') := by
  refine ⟨rfl, rfl, rfl, rfl, fun s c hc => ?_, fun s => ?_⟩
  · have he : (_camel_to_snake_case s).toList =
        (camelGo none s.toList).dropWhile (fun c => c = '_') := rfl
    rw [he] at hc
    exact camelGo_not_upper s.toList none c ((List.dropWhile_sublist _).subset hc)
  · have he : (_camel_to_snake_case s).toList =
        (camelGo none s.toList).dropWhile (fun c => c = '_') := rfl
    rw [he]
    exact dropWhile_underscore_head _

/-- C4 counterexample: the leftover extended-metadata key category_hrefs
survives into the reshaped tags mapping but the typed story tags value has
no component for it, so it is discarded rather than preserved; moreover
rating, which the claim counts among the removed keys, is still present in
the reshaped tags mapping. -/
theorem c4_tags_counterexample :
    dictGet ao3Meta "category_hrefs" = some (.list [.str "/tags/gen"]) ∧
    (shape_data ao3Payload).map (fun d => dictGet d "tags") = .ok (some (.obj ao3Leftover)) ∧
    dictGet ao3Leftover "category_hrefs" = some (.list [.str "/tags/gen"]) ∧
    dictGet ao3Leftover "rating" = some (.list [.str "Teen"]) ∧
    (parse_story ao3Payload).map (fun st =>
      (storyTags st).map (fun t => tagsLookup t "category_hrefs")) = .ok (some none) :=
  ⟨rfl, rfl, rfl, rfl, rfl⟩

/-- C4 amended: every extended-metadata entry other than fandom, character,
stats and language (rating is read but not removed) survives into the
reshaped tags mapping, which is exactly the metadata object after those
four pops; the typed construction then keeps only the four declared
categories in the story tags value, as witnessed on the sample payload. -/
theorem c4_tags_amended :
    (∀ (m : PyDict) (k : String) (v : JsonV), (k, v) ∈ m →
      k ≠ "fandom" → k ≠ "character" → k ≠ "stats" → k ≠ "language" →
      (k, v) ∈ dictPop (dictPop (dictPop (dictPop m "fandom") "character") "stats") "language") ∧
    ((shape_data ao3Payload).map (fun d => dictGet d "tags") =
      .ok (some (.obj (dictPop (dictPop (dictPop (dictPop ao3Meta "fandom") "character")
        "stats") "language")))) ∧
    (∀ (t : Tags) (k : String), tagsLookup t k ≠ none →
      k = "category" ∨ k = "freeform" ∨ k = "relationship" ∨ k = "warning") ∧
    ((parse_story ao3Payload).map (fun st => (storyTags st).map (fun t =>
      (tagsLookup t "category", tagsLookup t "freeform", tagsLookup t "relationship",
        tagsLookup t "warning"))) =
      .ok (some (some ["Gen"], some ["Fluff"], some ["R1"], some ["NoWarn"]))) := by
  refine ⟨?_, rfl, ?_, rfl⟩
  · intro m k v hm h1 h2 h3 h4
    exact dictPop_mem _ _ _ _ (dictPop_mem _ _ _ _ (dictPop_mem _ _ _ _
      (dictPop_mem _ _ _ _ hm h1) h2) h3) h4
  · intro t k h
    unfold tagsLookup at h
    split_ifs at h with hc1 hc2 hc3 hc4
    · exact Or.inl hc1
    · exact Or.inr (Or.inl hc2)
    · exact Or.inr (Or.inr (Or.inl hc3))
    · exact Or.inr (Or.inr (Or.inr hc4))
    · exact absurd rfl h

/-- C4 witness: the preservation law applied to the rating entry of the
sample metadata, and the category component of a concrete tags value. -/
theorem c4_tags_amended_witness :
    ("rating", JsonV.list [JsonV.str "Teen"]) ∈
      dictPop (dictPop (dictPop (dictPop ao3Meta "fandom") "character") "stats") "language" ∧
    ("category" = "category" ∨ "category" = "freeform" ∨ "category" = "relationship" ∨
      "category" = "warning") := by
  constructor
  · refine c4_tags_amended.1 ao3Meta "rating" (JsonV.list [JsonV.str "Teen"]) ?_
      (by decide) (by decide) (by decide) (by decide)
    unfold ao3Meta
    exact List.Mem.tail _ (List.Mem.head _)
  · exact c4_tags_amended.2.2.1 (Tags.mk ["Gen"] [] [] []) "category" (by simp [tagsLookup])

/-- C5 counterexample: reshaping is not read-only on its input object: the
returned mapping is the final state of the argument, and it has lost the
top-level source key as well as the language key of the nested
extended-metadata object that the input held. -/
theorem c5_pure_reshape_counterexample :
    dictGet ao3Payload "source" = some (.str "https://archiveofourown.org/works/1") ∧
    (shape_data ao3Payload).map (fun d => dictGet d "source") = .ok none ∧
    dictGet ao3Meta "language" = some (.str "English") ∧
    (shape_data ao3Payload).map (fun d => dictGet d "rawExtendedMeta") =
      .ok (some (.obj ao3Leftover)) ∧
    dictGet ao3Leftover "language" = none :=
  ⟨rfl, rfl, rfl, rfl, rfl⟩

/-- C5 amended: reshaping is deterministic and free of input and output
effects, but it mutates the payload in place and returns it: on every
successful run the source key has been removed from the mapping (renamed
to url, as witnessed on the sample payload), and consumed keys are removed
from the nested extended-metadata object. -/
theorem c5_pure_reshape_amended :
    (∀ (data d : PyDict), shape_data data = .ok d → dictGet d "source" = none) ∧
    ((shape_data ao3Payload).map (fun d => dictGet d "url") =
      .ok (some (.str "https://archiveofourown.org/works/1"))) :=
  ⟨shape_data_removes_source, rfl⟩

/-- C5 witness: the source-removal law evaluated on the sample payload. -/
theorem c5_pure_reshape_amended_witness :
    ∃ d, shape_data ao3Payload = .ok d ∧ dictGet d "source" = none := by
  refine ⟨_, rfl, ?_⟩
  exact c5_pure_reshape_amended.1 ao3Payload _ rfl

/-- C6: the download parse evaluated where the claim speaks. On a payload
whose urls object is well-formed but whose meta object raises a TypeError
during reshaping (an integer source), the call propagates the error
instead of degrading to an absent metadata, because the except clause
catches only msgspec errors and KeyError. On a payload whose meta fails
with a caught KeyError, the call does return populated links with
metadata absent, but the relative paths are passed through verbatim: the
urljoin hook handed to the converter never runs for plain string fields,
so the links are not resolved against the fichub base as claimed. -/
theorem c6_download_parse_behavior :
    parse_story_download dlPayloadBadMetaType = .error PyErr.typeError ∧
    parse_story_download dlPayloadRelative =
      .ok (StoryDownload.mk
        (DownloadUrls.mk "/cache/epub/x.epub" "/cache/html/x.html"
          "/cache/mobi/x.mobi" "/cache/pdf/x.pdf") none) ∧
    urljoin "https://fichub.net/" "/cache/epub/x.epub" =
      "https://fichub.net/cache/epub/x.epub" ∧
    ("/cache/epub/x.epub" : String) ≠ "https://fichub.net/cache/epub/x.epub" :=
  ⟨rfl, rfl, rfl, by decide⟩

/-- C7: a payload without the top-level source key makes the metadata
parse fail with a KeyError carrying the key name source, wrapped by the
client into a FicHubException chained to that KeyError; no story value is
produced. -/
theorem c7_missing_source (data : PyDict) (h : dictGet data "source" = none) :
    parse_story data = .error (.keyError "source") ∧
    get_story_metadata_shaped data =
      .error (.fichubError "Unable to load story metadata from url" (.keyError "source")) := by
  have hp : parse_story data = .error (.keyError "source") := by
    unfold parse_story shape_data getItem
    rw [h]
    rfl
  refine ⟨hp, ?_⟩
  unfold get_story_metadata_shaped
  rw [hp]
  rfl

/-- C7 witness: the missing-source failure evaluated on a concrete payload
without a source key. -/
theorem c7_missing_source_witness :
    parse_story [("title", JsonV.str "T")] = .error (.keyError "source") :=
  (c7_missing_source [("title", JsonV.str "T")] rfl).1

/-- C8 counterexample: a constructor argument outside the valid range is
silently replaced by the default 2, with no error raised (the constructor
model is a total function into the limit), contradicting the claim that
out-of-range values are rejected at configuration time. -/
theorem c8_sema_limit_counterexample :
    client_init_sema_limit (some 5) = 2 ∧ (2 : Int) ≠ 5 :=
  ⟨rfl, by decide⟩

/-- C8 amended: at construction an in-range limit is used as given while a
missing, falsy or out-of-range one is silently replaced by 2, as the
constructor docstring states; only the property setter rejects values
outside 1..3, raising ValueError, and stores in-range values as given. -/
theorem c8_sema_limit_amended (v : Int) :
    (1 ≤ v ∧ v ≤ 3 → client_init_sema_limit (some v) = v ∧ sema_limit_setter v = .ok v) ∧
    (¬ (1 ≤ v ∧ v ≤ 3) → client_init_sema_limit (some v) = 2 ∧
      sema_limit_setter v = .error "To prevent hitting the FicHub API too much, this limit has to be between 1 and 3 inclusive.") ∧
    client_init_sema_limit none = 2 := by
  refine ⟨fun h => ⟨?_, ?_⟩, fun h => ⟨?_, ?_⟩, rfl⟩
  · show (if v ≠ 0 ∧ 1 ≤ v ∧ v ≤ 3 then v else 2) = v
    rw [if_pos ⟨by omega, h⟩]
  · show (if 1 ≤ v ∧ v ≤ 3 then Except.ok v else _) = _
    rw [if_pos h]
  · show (if v ≠ 0 ∧ 1 ≤ v ∧ v ≤ 3 then v else 2) = 2
    rw [if_neg (fun hc => h hc.2)]
  · show (if 1 ≤ v ∧ v ≤ 3 then Except.ok v else _) = _
    rw [if_neg h]

/-- C8 witness: the construction and setter laws evaluated at the in-range
limit 2 and the out-of-range limit 5. -/
theorem c8_sema_limit_witness :
    client_init_sema_limit (some 2) = 2 ∧ sema_limit_setter 2 = .ok 2 ∧
    client_init_sema_limit (some 5) = 2 ∧
    sema_limit_setter 5 = .error "To prevent hitting the FicHub API too much, this limit has to be between 1 and 3 inclusive." := by
  obtain ⟨hin, _, _⟩ := c8_sema_limit_amended 2
  obtain ⟨_, hout, _⟩ := c8_sema_limit_amended 5
  obtain ⟨w1, w2⟩ := hin (by decide)
  obtain ⟨w3, w4⟩ := hout (by decide)
  exact ⟨w1, w2, w3, w4⟩

/-- C9: every story variant is declared frozen, so attribute assignment on
any story raises; story equality is field-by-field value equality; and two
stories with equal field values are equal with equal, present hashes, so
stories can be deduplicated as container keys. -/
theorem c9_story_value_semantics (s t : Story) :
    storySetAttrRaises s = true ∧
    (s = t ↔ storyFieldsEq s t) ∧
    (storyFieldsEq s t → s = t ∧ storyPyHash s = storyPyHash t ∧
      (storyPyHash s).isSome = true) := by
  have hiff : s = t ↔ storyFieldsEq s t := by
    cases s <;> cases t <;> (rename_i a b; cases a; cases b; simp [storyFieldsEq])
  refine ⟨?_, hiff, fun hf => ?_⟩
  · cases s <;> rfl
  · have hst : s = t := hiff.mpr hf
    subst hst
    exact ⟨rfl, rfl, by cases s <;> rfl⟩

/-- C9 witness: the frozen flag, hash agreement and hash presence
evaluated on a sample story compared with itself. -/
theorem c9_story_value_semantics_witness :
    storySetAttrRaises sampleStory = true ∧
    storyPyHash sampleStory = storyPyHash sampleStory ∧
    (storyPyHash sampleStory).isSome = true := by
  obtain ⟨h1, h2, h3⟩ := c9_story_value_semantics sampleStory sampleStory
  obtain ⟨_, h4, h5⟩ := h3 (h2.mp rfl)
  exact ⟨h1, h4, h5⟩

set_option maxHeartbeats 16000000

/-- C10: for every rated string, the FFN payload family whose extended
metadata is present but lacks the crossover key reshapes with a null
is_crossover value and the typed construction of the FFN variant fails on
that field; in general an explicit null never triggers the declared False
default, which applies only when the key is absent. -/
theorem c10_missing_crossover :
    (∀ r : String,
      (shape_data (ffnFrameNoCrossover r)).map (fun d => dictGet d "is_crossover") =
        .ok (some JsonV.null) ∧
      parse_story (ffnFrameNoCrossover r) = .error (convBadType "is_crossover")) ∧
    (∀ d : PyDict, dictGet d "is_crossover" = some JsonV.null →
      convBoolD d "is_crossover" false = .error (convBadType "is_crossover")) := by
  refine ⟨fun r => ⟨rfl, rfl⟩, fun d h => ?_⟩
  unfold convBoolD
  rw [h]

/-- C10 witness: the null-rejection law evaluated on a one-entry mapping. -/
theorem c10_missing_crossover_witness :
    convBoolD [("is_crossover", JsonV.null)] "is_crossover" false =
      .error (convBadType "is_crossover") :=
  c10_missing_crossover.2 [("is_crossover", JsonV.null)] rfl

/-- C3 witness: the no-uppercase law applied to a character of the URLId
output, and the no-leading-underscore law applied to a concrete key. -/
theorem c3_camel_amended_witness :
    ('u').isUpper = false ∧
    (_camel_to_snake_case "authorLocalId").toList.head? ≠ some '_' :=
  ⟨c3_camel_amended.2.2.2.2.1 "URLId" 'u' (by decide),
   c3_camel_amended.2.2.2.2.2 "authorLocalId"⟩
